import Mathlib

/-!
Shallow embedding of `claude_openrouter_proxy.py`, a Claude-to-OpenRouter
protocol-translation gateway, together with proofs of its specified
properties.

JSON values are modelled by the inductive `JValue`.  JSON numbers are
modelled as integers (`Int`); no behaviour verified here performs
arithmetic on, or serialises, fractional numbers, and the floating-point
case is rejected explicitly by the embedded `json.loads` model.
Python runtime primitives used by the source (`dict.get`, truthiness,
`len`, `str`, iteration, `json.loads`, `json.dumps`) are embedded as
explicit Lean functions; fallible Python expressions (those that can
raise) return `Except String`.
-/

/-- A JSON value as produced by Python's `json` module (numbers restricted
to integers, see the module docstring). -/
inductive JValue where
  | null : JValue
  | bool (b : Bool) : JValue
  | num (n : Int) : JValue
  | str (s : String) : JValue
  | arr (elems : List JValue) : JValue
  | obj (fields : List (String × JValue)) : JValue

/-- Python truthiness (`if x:`) for JSON-shaped values: `None`, `False`,
`0`, `""`, `[]` and `{}` are falsy, everything else truthy. -/
def pyTruthy : JValue → Bool
  | .null => false
  | .bool b => b
  | .num n => n != 0
  | .str s => s != ""
  | .arr xs => !xs.isEmpty
  | .obj fs => !fs.isEmpty

/-- Python `d.get(key, default)`: succeeds only on a dict; on any other
value the attribute access raises `AttributeError`. -/
def jGet (v : JValue) (key : String) (dflt : JValue) : Except String JValue :=
  match v with
  | .obj fields => .ok ((fields.lookup key).getD dflt)
  | _ => .error "AttributeError: object has no attribute get"

/-- Python `key in d` for a dict (the only case the source reaches:
the receiver has already answered a `.get` call, hence is a dict). -/
def jContains (v : JValue) (key : String) : Except String Bool :=
  match v with
  | .obj fields => .ok (fields.lookup key).isSome
  | _ => .error "TypeError: argument is not iterable"

/-- Python `d[key]` on a dict: `KeyError` when the key is absent. -/
def jIndex (v : JValue) (key : String) : Except String JValue :=
  match v with
  | .obj fields =>
    match fields.lookup key with
    | some w => .ok w
    | none => .error "KeyError"
  | _ => .error "TypeError: value is not subscriptable"

/-- Python `xs[0]`: first element of a list, or the first character of a
nonempty string (as a one-character string); raises otherwise. -/
def pyIndex0 : JValue → Except String JValue
  | .arr (x :: _) => .ok x
  | .arr [] => .error "IndexError: list index out of range"
  | .str s =>
    match s.toList with
    | c :: _ => .ok (.str (String.mk [c]))
    | [] => .error "IndexError: string index out of range"
  | _ => .error "TypeError: value is not subscriptable"

/-- Python iteration `for x in v`: lists yield their elements, strings
their characters (as one-character strings), dicts their keys; other
values raise `TypeError`. -/
def pyIter : JValue → Except String (List JValue)
  | .arr xs => .ok xs
  | .str s => .ok (s.toList.map fun c => .str (String.mk [c]))
  | .obj fs => .ok (fs.map fun kv => .str kv.1)
  | _ => .error "TypeError: object is not iterable"

/-- Python `len(v)` for strings, lists and dicts; raises on other values. -/
def pyLen : JValue → Except String Nat
  | .str s => .ok s.length
  | .arr xs => .ok xs.length
  | .obj fs => .ok fs.length
  | _ => .error "TypeError: object has no length"

/-- Python dict assignment semantics used when building a dict: an existing
key keeps its position and receives the new value, a new key is appended. -/
def setKey : List (String × JValue) → String → JValue → List (String × JValue)
  | [], k, v => [(k, v)]
  | (k', v') :: rest, k, v =>
    if k' == k then (k', v) :: rest else (k', v') :: setKey rest k v

/-- Lower-case hex digit. -/
def hexDigit (n : Nat) : Char :=
  if n < 10 then Char.ofNat (48 + n) else Char.ofNat (87 + n)

/-- Four lower-case hex digits, as in Python's `\uXXXX` escapes. -/
def hex4 (n : Nat) : String :=
  String.mk [hexDigit (n / 4096 % 16), hexDigit (n / 256 % 16),
             hexDigit (n / 16 % 16), hexDigit (n % 16)]

/-- Escape of one character inside a JSON string, following
`json.dumps` defaults (`ensure_ascii=True`): quote, backslash and the
named control escapes use two-character forms, all other control and
all non-ASCII characters become `\uXXXX` (surrogate pairs above
`0xFFFF`). -/
def escapeChar (c : Char) : String :=
  if c = '"' then "\\\""
  else if c = '\\' then "\\\\"
  else if c = '\n' then "\\n"
  else if c = '\t' then "\\t"
  else if c = '\r' then "\\r"
  else if c = '\x08' then "\\b"
  else if c = '\x0c' then "\\f"
  else if c.toNat < 32 then "\\u" ++ hex4 c.toNat
  else if c.toNat < 127 then String.mk [c]
  else if c.toNat < 65536 then "\\u" ++ hex4 c.toNat
  else
    "\\u" ++ hex4 (55296 + (c.toNat - 65536) / 1024) ++
    "\\u" ++ hex4 (56320 + (c.toNat - 65536) % 1024)

/-- Body of a JSON string literal under `json.dumps` escaping. -/
def escapeString (s : String) : String :=
  String.join (s.toList.map escapeChar)

mutual

/-- Python `json.dumps(v)` with default arguments (separators `", "` and
`": "`, `ensure_ascii=True`). -/
def jsonDumps : JValue → String
  | .null => "null"
  | .bool true => "true"
  | .bool false => "false"
  | .num n => toString n
  | .str s => "\"" ++ escapeString s ++ "\""
  | .arr xs => "[" ++ jsonDumpsList xs ++ "]"
  | .obj fs => "\x7b" ++ jsonDumpsFields fs ++ "\x7d"

/-- Comma-separated serialisation of array elements. -/
def jsonDumpsList : List JValue → String
  | [] => ""
  | [x] => jsonDumps x
  | x :: y :: xs => jsonDumps x ++ ", " ++ jsonDumpsList (y :: xs)

/-- Comma-separated serialisation of object entries. -/
def jsonDumpsFields : List (String × JValue) → String
  | [] => ""
  | [(k, v)] => "\"" ++ escapeString k ++ "\": " ++ jsonDumps v
  | (k, v) :: e :: fs =>
    "\"" ++ escapeString k ++ "\": " ++ jsonDumps v ++ ", " ++
    jsonDumpsFields (e :: fs)

end

mutual

/-- Python `repr` for JSON-shaped values, as reached through `str()` on
non-string values in `count_tokens`.  String quoting is modelled with
single quotes and without CPython's quote-switching refinement; no
verified property depends on the repr of a container. -/
def pyRepr : JValue → String
  | .null => "None"
  | .bool true => "True"
  | .bool false => "False"
  | .num n => toString n
  | .str s => "\x27" ++ s ++ "\x27"
  | .arr xs => "[" ++ pyReprList xs ++ "]"
  | .obj fs => "\x7b" ++ pyReprFields fs ++ "\x7d"

/-- Comma-separated repr of list elements. -/
def pyReprList : List JValue → String
  | [] => ""
  | [x] => pyRepr x
  | x :: y :: xs => pyRepr x ++ ", " ++ pyReprList (y :: xs)

/-- Comma-separated repr of dict entries. -/
def pyReprFields : List (String × JValue) → String
  | [] => ""
  | [(k, v)] => "\x27" ++ k ++ "\x27: " ++ pyRepr v
  | (k, v) :: e :: fs =>
    "\x27" ++ k ++ "\x27: " ++ pyRepr v ++ ", " ++ pyReprFields (e :: fs)

end

/-- Python `str(v)`: the string itself for strings, `repr` otherwise
(for JSON-shaped values `str` and `repr` agree on non-strings). -/
def pyStr (v : JValue) : String :=
  match v with
  | .str s => s
  | other => pyRepr other

/-- JSON whitespace as accepted by Python's `json.loads`. -/
def isJsonWs (c : Char) : Bool :=
  c = ' ' || c = '\t' || c = '\n' || c = '\r'

/-- Value of one hexadecimal digit. -/
def hexVal (c : Char) : Option Nat :=
  if '0' ≤ c && c ≤ '9' then some (c.toNat - 48)
  else if 'a' ≤ c && c ≤ 'f' then some (c.toNat - 87)
  else if 'A' ≤ c && c ≤ 'F' then some (c.toNat - 55)
  else none

/-- Parse the body of a JSON string literal (the opening quote already
consumed), handling the standard escapes.  A valid `\uXXXX` surrogate
pair is combined into one character; a lone surrogate escape (which
CPython would keep as a surrogate code unit) degrades to `U+0000` via
`Char.ofNat`'s default — no verified property exercises that case. -/
def parseJStr (fuel : Nat) (acc : List Char) (cs : List Char) :
    Except String (String × List Char) :=
  match fuel, cs with
  | 0, _ => .error "model: fuel exhausted"
  | _, [] => .error "Unterminated string"
  | f + 1, c :: rest =>
    if c = '"' then .ok (String.mk acc.reverse, rest)
    else if c = '\\' then
      match rest with
      | [] => .error "Unterminated string"
      | e :: rest2 =>
        if e = '"' then parseJStr f ('"' :: acc) rest2
        else if e = '\\' then parseJStr f ('\\' :: acc) rest2
        else if e = '/' then parseJStr f ('/' :: acc) rest2
        else if e = 'b' then parseJStr f ('\x08' :: acc) rest2
        else if e = 'f' then parseJStr f ('\x0c' :: acc) rest2
        else if e = 'n' then parseJStr f ('\n' :: acc) rest2
        else if e = 'r' then parseJStr f ('\r' :: acc) rest2
        else if e = 't' then parseJStr f ('\t' :: acc) rest2
        else if e = 'u' then
          match rest2 with
          | a :: b :: c2 :: d :: rest3 =>
            match hexVal a, hexVal b, hexVal c2, hexVal d with
            | some ha, some hb, some hc, some hd =>
              let n := ha * 4096 + hb * 256 + hc * 16 + hd
              if 55296 ≤ n && n < 56320 then
                match rest3 with
                | '\\' :: 'u' :: a2 :: b2 :: c3 :: d2 :: rest4 =>
                  match hexVal a2, hexVal b2, hexVal c3, hexVal d2 with
                  | some ha2, some hb2, some hc2, some hd2 =>
                    let m := ha2 * 4096 + hb2 * 256 + hc2 * 16 + hd2
                    if 56320 ≤ m && m < 57344 then
                      let cp := 65536 + (n - 55296) * 1024 + (m - 56320)
                      parseJStr f (Char.ofNat cp :: acc) rest4
                    else
                      parseJStr f (Char.ofNat n :: acc) rest3
                  | _, _, _, _ => parseJStr f (Char.ofNat n :: acc) rest3
                | _ => parseJStr f (Char.ofNat n :: acc) rest3
              else
                parseJStr f (Char.ofNat n :: acc) rest3
            | _, _, _, _ => .error "Invalid hex escape"
          | _ => .error "Invalid hex escape"
        else .error "Invalid escape"
    else parseJStr f (c :: acc) rest

/-- Digits to a natural number (most significant first). -/
def digitsToNat (acc : Nat) : List Char → Nat
  | [] => acc
  | d :: ds => digitsToNat (acc * 10 + (d.toNat - 48)) ds

/-- Parse a JSON number per the JSON grammar's integer part (`0` alone or
a nonzero digit followed by digits).  A fractional part or exponent, which
`json.loads` would parse as a float, is rejected by the model (JSON numbers
are modelled as integers; no verified property involves float payloads). -/
def parseNum (neg : Bool) (cs : List Char) : Except String (JValue × List Char) :=
  match cs with
  | [] => .error "Expecting value"
  | d0 :: rest0 =>
    if !d0.isDigit then .error "Expecting value"
    else
      let (ds, rest) :=
        if d0 = '0' then ([d0], rest0)
        else
          let (more, rest1) := rest0.span (·.isDigit)
          (d0 :: more, rest1)
      match rest with
      | c :: _ =>
        if c = '.' || c = 'e' || c = 'E' then
          .error "model: non-integer JSON numbers are not modelled"
        else
          let n : Int := Int.ofNat (digitsToNat 0 ds)
          .ok (.num (if neg then -n else n), rest)
      | [] =>
        let n : Int := Int.ofNat (digitsToNat 0 ds)
        .ok (.num (if neg then -n else n), [])

mutual

/-- Parse one JSON value (whitespace-prefix tolerant), returning the value
and the unconsumed remainder. -/
def parseVal (fuel : Nat) (cs : List Char) : Except String (JValue × List Char) :=
  match fuel with
  | 0 => .error "model: fuel exhausted"
  | f + 1 =>
    match List.dropWhile isJsonWs cs with
    | [] => .error "Expecting value"
    | c :: rest =>
      if c = '\x7b' then
        match parseMembers f rest with
        | .ok (ms, r) =>
          .ok (.obj (ms.foldl (fun fs kv => setKey fs kv.1 kv.2) []), r)
        | .error e => .error e
      else if c = '[' then
        match parseItems f rest with
        | .ok (vs, r) => .ok (.arr vs, r)
        | .error e => .error e
      else if c = '"' then
        match parseJStr f [] rest with
        | .ok (s, r) => .ok (.str s, r)
        | .error e => .error e
      else if c = 't' then
        match rest with
        | 'r' :: 'u' :: 'e' :: r => .ok (.bool true, r)
        | _ => .error "Expecting value"
      else if c = 'f' then
        match rest with
        | 'a' :: 'l' :: 's' :: 'e' :: r => .ok (.bool false, r)
        | _ => .error "Expecting value"
      else if c = 'n' then
        match rest with
        | 'u' :: 'l' :: 'l' :: r => .ok (.null, r)
        | _ => .error "Expecting value"
      else if c = '-' then parseNum true rest
      else if c.isDigit then parseNum false (c :: rest)
      else .error "Expecting value"

/-- Parse the items of a JSON array (opening bracket already consumed). -/
def parseItems (fuel : Nat) (cs : List Char) :
    Except String (List JValue × List Char) :=
  match fuel with
  | 0 => .error "model: fuel exhausted"
  | f + 1 =>
    match List.dropWhile isJsonWs cs with
    | ']' :: r => .ok ([], r)
    | _ => parseItemsLoop f cs

/-- Parse one or more comma-separated array items up to the closing
bracket. -/
def parseItemsLoop (fuel : Nat) (cs : List Char) :
    Except String (List JValue × List Char) :=
  match fuel with
  | 0 => .error "model: fuel exhausted"
  | f + 1 =>
    match parseVal f cs with
    | .error e => .error e
    | .ok (v, r1) =>
      match List.dropWhile isJsonWs r1 with
      | ']' :: r => .ok ([v], r)
      | ',' :: r =>
        match parseItemsLoop f r with
        | .ok (vs, r2) => .ok (v :: vs, r2)
        | .error e => .error e
      | _ => .error "Expecting delimiter"

/-- Parse the members of a JSON object (opening brace already consumed). -/
def parseMembers (fuel : Nat) (cs : List Char) :
    Except String (List (String × JValue) × List Char) :=
  match fuel with
  | 0 => .error "model: fuel exhausted"
  | f + 1 =>
    match List.dropWhile isJsonWs cs with
    | '\x7d' :: r => .ok ([], r)
    | _ => parseMembersLoop f cs

/-- Parse one or more comma-separated object members up to the closing
brace. -/
def parseMembersLoop (fuel : Nat) (cs : List Char) :
    Except String (List (String × JValue) × List Char) :=
  match fuel with
  | 0 => .error "model: fuel exhausted"
  | f + 1 =>
    match List.dropWhile isJsonWs cs with
    | '"' :: r =>
      match parseJStr f [] r with
      | .error e => .error e
      | .ok (k, r1) =>
        match List.dropWhile isJsonWs r1 with
        | ':' :: r2 =>
          match parseVal f r2 with
          | .error e => .error e
          | .ok (v, r3) =>
            match List.dropWhile isJsonWs r3 with
            | '\x7d' :: r4 => .ok ([(k, v)], r4)
            | ',' :: r4 =>
              match parseMembersLoop f r4 with
              | .ok (ms, r5) => .ok ((k, v) :: ms, r5)
              | .error e => .error e
            | _ => .error "Expecting delimiter"
        | _ => .error "Expecting colon delimiter"
    | _ => .error "Expecting property name"

end

/-- Python `json.loads(s)` (numbers restricted to integers, see above).
The fuel `2 * length + 4` dominates the recursion depth: every unit of
fuel spent on a recursive call accompanies the consumption of at least
one input character, at no more than two nesting levels per character. -/
def json_loads (s : String) : Except String JValue :=
  let cs := s.toList
  match parseVal (2 * cs.length + 4) cs with
  | .error e => .error e
  | .ok (v, rest) =>
    if (List.dropWhile isJsonWs rest).isEmpty then .ok v
    else .error "Extra data"

/-- The OpenRouter model substituted when the client names none
(`OPENROUTER_MODEL` in the source). -/
def OPENROUTER_MODEL : String := "openai/gpt-oss-120b"

/-- The Anthropic model identity the proxy reports to clients
(`ANTHROPIC_MODEL_ID` in the source). -/
def ANTHROPIC_MODEL_ID : String := "claude-sonnet-4-5-20250929"

/-- Python `s.startswith(p)`, character by character. -/
def listStarts : List Char → List Char → Bool
  | _, [] => true
  | [], _ :: _ => false
  | c :: cs, d :: ds => c == d && listStarts cs ds

/-- Python `s.startswith(p)`. -/
def strStarts (s p : String) : Bool :=
  listStarts s.toList p.toList

/-- Python slicing `s[n:]` (by code point, as Python slices strings). -/
def strDropN (s : String) (n : Nat) : String :=
  String.mk (s.toList.drop n)

/-- Python `s.strip()`: whitespace removed from both ends. -/
def pyStrip (s : String) : String :=
  String.mk (((s.toList.dropWhile Char.isWhitespace).reverse.dropWhile
    Char.isWhitespace).reverse)

/-- Flattening of one message's list-valued content
(source lines 56-60): the `text` of each block whose `type` is `"text"`
is concatenated onto the accumulator; `+=` on a non-string text raises
`TypeError`, and `.get` on a non-dict block raises `AttributeError`. -/
def blocksText : List JValue → Except String String
  | [] => .ok ""
  | b :: bs => do
    let ty ← jGet b "type" .null
    let piece ←
      match ty with
      | .str tys =>
        if tys == "text" then do
          let t ← jGet b "text" (.str "")
          match t with
          | .str ts => Except.ok ts
          | _ => Except.error "TypeError: can only concatenate str"
        else Except.ok ""
      | _ => Except.ok ""
    let restText ← blocksText bs
    .ok (piece ++ restText)

/-- Content normalisation of one message (source lines 55-60): a
list-valued content is flattened to a string, any other content is kept
as is. -/
def flattenContent (content : JValue) : Except String JValue :=
  match content with
  | .arr blocks =>
    match blocksText blocks with
    | .ok s => .ok (.str s)
    | .error e => .error e
  | other => .ok other

/-- Body of the message loop (source lines 51-62): read `role` and
`content` with their defaults, flatten the content, and build the
OpenRouter-style message. -/
def translateMessage (m : JValue) : Except String JValue := do
  let role ← jGet m "role" (.str "user")
  let content ← jGet m "content" (.str "")
  let content ← flattenContent content
  .ok (.obj [("role", role), ("content", content)])

/-- `ClaudeOpenRouterProxy.claude_to_openrouter_body` (source lines
42-79): translate the message list, pick the model, and forward `stream`
(only when truthy, always as `True`), `max_tokens` and `temperature`
(only when the key is present). -/
def claude_to_openrouter_body (claude_request : JValue) :
    Except String JValue := do
  let messages ← jGet claude_request "messages" (.arr [])
  let msgs ← pyIter messages
  let or_messages ← msgs.mapM translateMessage
  let model ← jGet claude_request "model" (.str OPENROUTER_MODEL)
  let body := [("model", model), ("messages", JValue.arr or_messages)]
  let streamVal ← jGet claude_request "stream" (.bool false)
  let body := if pyTruthy streamVal then body ++ [("stream", .bool true)] else body
  let hasMax ← jContains claude_request "max_tokens"
  let body ←
    if hasMax then do
      let v ← jIndex claude_request "max_tokens"
      Except.ok (body ++ [("max_tokens", v)])
    else Except.ok body
  let hasTemp ← jContains claude_request "temperature"
  let body ←
    if hasTemp then do
      let v ← jIndex claude_request "temperature"
      Except.ok (body ++ [("temperature", v)])
    else Except.ok body
  .ok (.obj body)

/-- `ClaudeOpenRouterProxy.openrouter_to_claude` (source lines 81-106):
take the first choice's message content when a choice exists, otherwise
serialise the whole backend response; wrap it in a single text block.
`now` stands for `int(time.time())`. -/
def openrouter_to_claude (or_response : JValue) (now : Int) :
    Except String JValue := do
  let choices ← jGet or_response "choices" (.arr [])
  let content ←
    if pyTruthy choices then do
      let c0 ← pyIndex0 choices
      let msg ← jGet c0 "message" (.obj [])
      jGet msg "content" (.str "")
    else
      Except.ok (.str (jsonDumps or_response))
  let usage ← jGet or_response "usage"
    (.obj [("input_tokens", .num 0), ("output_tokens", .num 0)])
  .ok (.obj [
    ("id", .str ("msg_" ++ toString now)),
    ("type", .str "message"),
    ("role", .str "assistant"),
    ("content", .arr [.obj [("type", .str "text"), ("text", content)]]),
    ("model", .str ANTHROPIC_MODEL_ID),
    ("stop_reason", .str "end_turn"),
    ("stop_sequence", .null),
    ("usage", usage)])

/-- Character count of one list-valued content's blocks (source lines
140-142): `len(b.get("text", ""))` for each block whose `type` is
`"text"`. -/
def blocksChars : List JValue → Except String Nat
  | [] => .ok 0
  | b :: bs => do
    let ty ← jGet b "type" .null
    let n ←
      match ty with
      | .str tys =>
        if tys == "text" then do
          let t ← jGet b "text" (.str "")
          pyLen t
        else Except.ok 0
      | _ => Except.ok 0
    let restN ← blocksChars bs
    .ok (n + restN)

/-- Character count of one message (source lines 138-144):
`len(str(c))` for non-list content, the per-block count otherwise. -/
def msgChars (m : JValue) : Except String Nat := do
  let c ← jGet m "content" (.str "")
  match c with
  | .arr bs => blocksChars bs
  | other => .ok (pyStr other).length

/-- Total character count over the message list (source lines 135-144). -/
def totalChars : List JValue → Except String Nat
  | [] => .ok 0
  | m :: ms => do
    let n ← msgChars m
    let restN ← totalChars ms
    .ok (n + restN)

/-- The character count the `count_tokens` endpoint computes for a
request body (source lines 133-144), including the `body or {}`
normalisation of a falsy parse result. -/
def countedChars (body : JValue) : Except String Nat := do
  let body := if pyTruthy body then body else .obj []
  let messages ← jGet body "messages" (.arr [])
  let msgs ← pyIter messages
  totalChars msgs

/-- The `count_tokens` endpoint (source lines 128-155): the JSON body it
returns for a parsed request body. -/
def count_tokens (body : JValue) : Except String JValue := do
  let n ← countedChars body
  let input_tokens : Int := Int.ofNat (n / 4)
  .ok (.obj [
    ("input_tokens", .num input_tokens),
    ("output_tokens", .num 0),
    ("total_tokens", .num input_tokens),
    ("model", .str ANTHROPIC_MODEL_ID)])

/-- One client-visible stream event: exactly the three JSON objects the
streaming generator can yield (source lines 240-258) — a
`content_block_delta` carrying a text fragment, the final
`message_delta` with `stop_reason` `"end_turn"`, or an `error` object. -/
inductive StreamEvent where
  | delta (text : JValue) : StreamEvent
  | terminal : StreamEvent
  | error (msg : String) : StreamEvent

/-- Whether an event is a stream-ending event (terminal or error). -/
def StreamEvent.isStop : StreamEvent → Bool
  | .delta _ => false
  | .terminal => true
  | .error _ => true

/-- Extraction of the incremental content fragment from one parsed chunk
(source lines 233-238): the first choice's `delta.content` when a choice
exists, the empty string otherwise. -/
def extractChunk (data_json : JValue) : Except String JValue := do
  let choices ← jGet data_json "choices" (.arr [])
  if pyTruthy choices then do
    let c0 ← pyIndex0 choices
    let delta_obj ← jGet c0 "delta" (.obj [])
    jGet delta_obj "content" (.str "")
  else
    Except.ok (.str "")

/-- The line loop of the streaming generator (source lines 223-256):
blank lines and lines without the `data:` tag are skipped, the `[DONE]`
sentinel breaks out of the loop (after which the terminal event is
yielded), any decode failure escapes to the `except` clause as a single
error event, and a truthy chunk yields one delta event. -/
def processLines : List String → List StreamEvent
  | [] => [.terminal]
  | line :: rest =>
    if line = "" then processLines rest
    else if strStarts line "data:" then
      let data_str := pyStrip (strDropN line 5)
      if data_str = "[DONE]" then [.terminal]
      else
        match json_loads data_str with
        | .error e => [.error e]
        | .ok data_json =>
          match extractChunk data_json with
          | .error e => [.error e]
          | .ok chunk =>
            if pyTruthy chunk then .delta chunk :: processLines rest
            else processLines rest
    else processLines rest

/-- `handle_streaming_request.generate` (source lines 212-258) over an
abstracted transport: `.error` stands for a connection failure or
non-success status raised by `session.post` / `raise_for_status`
(yielding a single error event), `.ok lines` for the backend's raw
event-stream lines. -/
def generate (transport : Except String (List String)) : List StreamEvent :=
  match transport with
  | .error e => [.error e]
  | .ok lines => processLines lines

/-- The delta payloads of an event sequence, in order. -/
def deltaPayloads (es : List StreamEvent) : List JValue :=
  es.filterMap fun e =>
    match e with
    | .delta v => some v
    | _ => none

/-- The delta payload a single line contributes on the success path
(none for blank, untagged, sentinel, undecodable or empty-chunk lines);
used to state the ordering guarantee. -/
def lineDelta (line : String) : Option JValue :=
  if line = "" then none
  else if strStarts line "data:" then
    let data_str := pyStrip (strDropN line 5)
    if data_str = "[DONE]" then none
    else
      match json_loads data_str with
      | .error _ => none
      | .ok data_json =>
        match extractChunk data_json with
        | .error _ => none
        | .ok chunk => if pyTruthy chunk then some chunk else none
  else none

/-- Python exceptions distinguished by `handle_non_streaming_request`.
In every `requests` release ≥ 2.27 (the versions installable today; the
repository pins none), `requests.exceptions.JSONDecodeError` — what
`resp.json()` raises on a non-JSON body — subclasses both
`RequestException` and `ValueError`. -/
inductive PyExc where
  | requestException (msg : String) : PyExc
  | jsonDecodeError (msg : String) : PyExc
  | valueError (msg : String) : PyExc
  | otherError (msg : String) : PyExc

/-- `isinstance(e, requests.exceptions.RequestException)`. -/
def PyExc.isRequestException : PyExc → Bool
  | .requestException _ => true
  | .jsonDecodeError _ => true
  | _ => false

/-- `isinstance(e, ValueError)`. -/
def PyExc.isValueError : PyExc → Bool
  | .valueError _ => true
  | .jsonDecodeError _ => true
  | _ => false

/-- The description carried by an exception. -/
def PyExc.msg : PyExc → String
  | .requestException m => m
  | .jsonDecodeError m => m
  | .valueError m => m
  | .otherError m => m

/-- Result of the backend `session.post` call, abstracted: a transport
failure (connection error or timeout), or an HTTP response with a status
code and raw body. -/
inductive BackendResult where
  | failure (msg : String) : BackendResult
  | response (status : Nat) (body : String) : BackendResult

/-- The `try` body of `handle_non_streaming_request` (source lines
179-189): post, `raise_for_status` (an `HTTPError`, a
`RequestException`, for any 4xx/5xx status), `resp.json()` (a
`requests JSONDecodeError` on an undecodable body), then the response
translation.  `now` stands for `int(time.time())`. -/
def tryNonStreaming (backend : BackendResult) (now : Int) :
    Except PyExc JValue :=
  match backend with
  | .failure m => .error (.requestException m)
  | .response status body =>
    if 400 ≤ status then .error (.requestException ("HTTPError " ++ toString status))
    else
      match json_loads body with
      | .error m => .error (.jsonDecodeError m)
      | .ok or_response =>
        match openrouter_to_claude or_response now with
        | .ok claude_response => .ok claude_response
        | .error m => .error (.otherError m)

/-- `handle_non_streaming_request` (source lines 178-204): the `except`
clauses are tried in source order — `RequestException` first, then
`ValueError` — and an unmatched exception propagates.  Returns the JSON
payload and HTTP status of the Flask response. -/
def handle_non_streaming_request (backend : BackendResult) (now : Int) :
    Except PyExc (JValue × Nat) :=
  match tryNonStreaming backend now with
  | .ok v => .ok (v, 200)
  | .error e =>
    if e.isRequestException then
      .ok (.obj [
        ("error", .str "OpenRouter request failed"),
        ("detail", .str e.msg),
        ("note", .str "Check OPENROUTER_API_KEY and that the model openai/gpt-oss-120b is available for your account.")], 500)
    else if e.isValueError then
      .ok (.obj [
        ("error", .str "OpenRouter did not return JSON"),
        ("detail", .str e.msg)], 500)
    else
      .error e

/-- A well-formed content block: a dict whose `text` field (when the
block is tagged `"text"` and the field is present) is a string. -/
def wfBlock : JValue → Bool
  | .obj fs =>
    match (fs.lookup "type").getD .null with
    | .str tys =>
      if tys == "text" then
        match (fs.lookup "text").getD (.str "") with
        | .str _ => true
        | _ => false
      else true
    | _ => true
  | _ => false

/-- A well-formed message: a dict whose content, when list-valued,
contains only well-formed blocks. -/
def wfMessage : JValue → Bool
  | .obj fs =>
    match (fs.lookup "content").getD (.str "") with
    | .arr bs => bs.all wfBlock
    | _ => true
  | _ => false

/-- A well-formed client request: a dict whose `messages` value (an
empty list when absent) is a list of well-formed messages. -/
def wfRequest : JValue → Bool
  | .obj fs =>
    match (fs.lookup "messages").getD (.arr []) with
    | .arr ms => ms.all wfMessage
    | _ => false
  | _ => false

/-- Modelled from the spec's words, for comparison with the source's
flattening: the text contributed by one block — its `text` field (empty
when absent) when the block is tagged `"text"`, nothing otherwise. -/
def blockTextTag (b : JValue) : Option String :=
  match b with
  | .obj fs =>
    match (fs.lookup "type").getD .null with
    | .str tys =>
      if tys == "text" then
        match (fs.lookup "text").getD (.str "") with
        | .str s => some s
        | _ => none
      else none
    | _ => none
  | _ => none

/-- Concatenation in sequence order with no separator. -/
def joinAll : List String → String
  | [] => ""
  | s :: ss => s ++ joinAll ss

theorem blocksText_spec (bs : List JValue) (h : bs.all wfBlock = true) :
    blocksText bs = .ok (joinAll (bs.filterMap blockTextTag)) := by
  induction bs with
  | nil => rfl
  | cons b rest ih =>
    rw [List.all_cons, Bool.and_eq_true] at h
    obtain ⟨hb, hrest⟩ := h
    match b with
    | .null | .bool _ | .num _ | .str _ | .arr _ => simp [wfBlock] at hb
    | .obj fs =>
      simp only [blocksText, jGet, bind, Except.bind]
      simp only [wfBlock] at hb
      simp only [blockTextTag, List.filterMap_cons]
      rcases hty : (fs.lookup "type").getD JValue.null with _ | b' | n | tys | xs | gs <;>
        rw [hty] at hb <;> simp only [hty]
      case str =>
        by_cases htext : tys == "text"
        · simp only [htext] at hb ⊢
          simp only [if_true]
          rcases htv : (fs.lookup "text").getD (JValue.str "") with _ | b2 | n2 | s2 | xs2 | gs2 <;>
            rw [htv] at hb <;> try simp at hb
          simp only [ih hrest, joinAll]
        · simp only [htext, if_false, Bool.false_eq_true, ih hrest, joinAll,
            String.empty_append]
      all_goals simp only [ih hrest, joinAll, String.empty_append]

theorem translateMessage_arr (fs : List (String × JValue)) (blocks : List JValue)
    (hc : (fs.lookup "content").getD (.str "") = .arr blocks)
    (hwf : blocks.all wfBlock = true) :
    translateMessage (.obj fs) =
      .ok (.obj [("role", (fs.lookup "role").getD (.str "user")),
                 ("content", .str (joinAll (blocks.filterMap blockTextTag)))]) := by
  simp only [translateMessage, jGet, bind, Except.bind, hc, flattenContent,
    blocksText_spec blocks hwf]

theorem translateMessage_str (fs : List (String × JValue)) (s : String)
    (hc : (fs.lookup "content").getD (.str "") = .str s) :
    translateMessage (.obj fs) =
      .ok (.obj [("role", (fs.lookup "role").getD (.str "user")),
                 ("content", .str s)]) := by
  simp only [translateMessage, jGet, bind, Except.bind, hc, flattenContent]

theorem translateMessage_total (m : JValue) (h : wfMessage m = true) :
    ∃ t, translateMessage m = .ok t := by
  match m with
  | .null | .bool _ | .num _ | .str _ | .arr _ => simp [wfMessage] at h
  | .obj fs =>
    simp only [wfMessage] at h
    simp only [translateMessage, jGet, bind, Except.bind]
    rcases hc : (fs.lookup "content").getD (JValue.str "") with _ | b | n | s | bs | gs <;>
      rw [hc] at h <;> simp only [flattenContent]
    case arr => simp only [blocksText_spec bs h]; exact ⟨_, rfl⟩
    all_goals exact ⟨_, rfl⟩

theorem mapM_translate_total (ms : List JValue) (h : ms.all wfMessage = true) :
    ∃ ts, ms.mapM translateMessage = .ok ts := by
  induction ms with
  | nil => exact ⟨[], rfl⟩
  | cons m rest ih =>
    rw [List.all_cons, Bool.and_eq_true] at h
    obtain ⟨hm, hrest⟩ := h
    obtain ⟨t, ht⟩ := translateMessage_total m hm
    obtain ⟨ts, hts⟩ := ih hrest
    refine ⟨t :: ts, ?_⟩
    rw [List.mapM_cons, ht, hts]
    rfl

/-- The exact body `claude_to_openrouter_body` builds for a dict request
whose messages translate to `ts`. -/
def builtBody (fs : List (String × JValue)) (ts : List JValue) :
    List (String × JValue) :=
  [("model", (fs.lookup "model").getD (.str OPENROUTER_MODEL)),
   ("messages", JValue.arr ts)] ++
  (if pyTruthy ((fs.lookup "stream").getD (.bool false)) then
     [("stream", JValue.bool true)] else []) ++
  (match fs.lookup "max_tokens" with
   | some v => [("max_tokens", v)]
   | none => []) ++
  (match fs.lookup "temperature" with
   | some v => [("temperature", v)]
   | none => [])

theorem claude_body_char (fs : List (String × JValue)) (ms : List JValue)
    (ts : List JValue)
    (hm : (fs.lookup "messages").getD (.arr []) = .arr ms)
    (hts : ms.mapM translateMessage = .ok ts) :
    claude_to_openrouter_body (.obj fs) = .ok (.obj (builtBody fs ts)) := by
  simp only [claude_to_openrouter_body, jGet, jContains, jIndex, bind,
    Except.bind, hm, pyIter, hts, builtBody]
  cases hstream : pyTruthy ((fs.lookup "stream").getD (JValue.bool false)) <;>
    cases hmax : fs.lookup "max_tokens" <;>
      cases htemp : fs.lookup "temperature" <;>
        simp

/-- C3: for a message with block-sequence content, translation replaces
the content with the concatenation (in order, no separator) of the text
fields of exactly the `"text"`-tagged blocks, other tags contributing
nothing; for a message with plain-string content, translation is the
identity on the content field. -/
theorem requestTranslator_flattens_and_preserves_strings :
    (∀ (fs : List (String × JValue)) (blocks : List JValue),
      (fs.lookup "content").getD (.str "") = .arr blocks →
      blocks.all wfBlock = true →
      translateMessage (.obj fs) =
        .ok (.obj [("role", (fs.lookup "role").getD (.str "user")),
                   ("content", .str (joinAll (blocks.filterMap blockTextTag)))])) ∧
    (∀ (fs : List (String × JValue)) (s : String),
      (fs.lookup "content").getD (.str "") = .str s →
      translateMessage (.obj fs) =
        .ok (.obj [("role", (fs.lookup "role").getD (.str "user")),
                   ("content", .str s)])) :=
  ⟨translateMessage_arr, translateMessage_str⟩

/-- Witness for C3 at concrete inputs: a block list (text `"a"`, an
`image` block, text `"b"`) flattens to `"ab"`, and a plain-string
content `"plain"` is preserved. -/
theorem requestTranslator_flattens_witness :
    translateMessage (.obj [("role", .str "user"),
      ("content", .arr [.obj [("type", .str "text"), ("text", .str "a")],
                        .obj [("type", .str "image")],
                        .obj [("type", .str "text"), ("text", .str "b")]])]) =
      .ok (.obj [("role", .str "user"), ("content", .str "ab")]) ∧
    translateMessage (.obj [("content", .str "plain")]) =
      .ok (.obj [("role", .str "user"), ("content", .str "plain")]) :=
  ⟨requestTranslator_flattens_and_preserves_strings.1
      [("role", .str "user"),
       ("content", .arr [.obj [("type", .str "text"), ("text", .str "a")],
                         .obj [("type", .str "image")],
                         .obj [("type", .str "text"), ("text", .str "b")]])]
      [.obj [("type", .str "text"), ("text", .str "a")],
       .obj [("type", .str "image")],
       .obj [("type", .str "text"), ("text", .str "b")]] rfl rfl,
   requestTranslator_flattens_and_preserves_strings.2
      [("content", .str "plain")] "plain" rfl⟩

/-- C4 (counterexample): the translator is not total over all inputs —
on a non-dict request, `claude_request.get` raises `AttributeError`
rather than returning a backend request. -/
theorem requestTranslator_raises_on_nondict :
    claude_to_openrouter_body (.str "not a dict") =
      .error "AttributeError: object has no attribute get" := rfl

/-- C4 (amended): the translator is total over all well-formed inputs —
whenever the request is a dict whose `messages` value (empty when
absent) is a list of dict messages whose list-valued contents hold only
dict blocks with string (or absent) `text` fields, it returns a backend
request; on a non-dict request, message or block it raises
`AttributeError` (caught only by the gateway's catch-all handler). -/
theorem requestTranslator_total_on_wf (r : JValue) (h : wfRequest r = true) :
    ∃ b, claude_to_openrouter_body r = .ok b := by
  match r with
  | .null | .bool _ | .num _ | .str _ | .arr _ => simp [wfRequest] at h
  | .obj fs =>
    simp only [wfRequest] at h
    rcases hmv : (fs.lookup "messages").getD (JValue.arr []) with _ | b | n | s | ms | gs <;>
      rw [hmv] at h
    case arr =>
      obtain ⟨ts, hts⟩ := mapM_translate_total ms h
      exact ⟨_, claude_body_char fs ms ts hmv hts⟩
    all_goals exact absurd h (by simp)

/-- Witness for C4 (amended) at a concrete well-formed request. -/
theorem requestTranslator_total_witness :
    wfRequest (.obj [("messages",
      .arr [.obj [("role", .str "user"), ("content", .str "hi")]])]) = true ∧
    ∃ b, claude_to_openrouter_body (.obj [("messages",
      .arr [.obj [("role", .str "user"), ("content", .str "hi")]])]) = .ok b :=
  ⟨rfl, requestTranslator_total_on_wf _ rfl⟩

theorem builtBody_lookup_stream (fs : List (String × JValue)) (ts : List JValue) :
    (builtBody fs ts).lookup "stream" =
      (if pyTruthy ((fs.lookup "stream").getD (.bool false)) then
        some (JValue.bool true) else none) := by
  unfold builtBody
  cases hstream : pyTruthy ((fs.lookup "stream").getD (JValue.bool false)) <;>
  cases hmax : fs.lookup "max_tokens" <;>
  cases htemp : fs.lookup "temperature" <;>
  simp [List.lookup]

theorem builtBody_lookup_max (fs : List (String × JValue)) (ts : List JValue) :
    (builtBody fs ts).lookup "max_tokens" = fs.lookup "max_tokens" := by
  unfold builtBody
  cases hstream : pyTruthy ((fs.lookup "stream").getD (JValue.bool false)) <;>
  cases hmax : fs.lookup "max_tokens" <;>
  cases htemp : fs.lookup "temperature" <;>
  simp [List.lookup]

theorem builtBody_lookup_temp (fs : List (String × JValue)) (ts : List JValue) :
    (builtBody fs ts).lookup "temperature" = fs.lookup "temperature" := by
  unfold builtBody
  cases hstream : pyTruthy ((fs.lookup "stream").getD (JValue.bool false)) <;>
  cases hmax : fs.lookup "max_tokens" <;>
  cases htemp : fs.lookup "temperature" <;>
  simp [List.lookup]

theorem builtBody_lookup_model (fs : List (String × JValue)) (ts : List JValue) :
    (builtBody fs ts).lookup "model" =
      some ((fs.lookup "model").getD (.str OPENROUTER_MODEL)) := by
  unfold builtBody
  cases hstream : pyTruthy ((fs.lookup "stream").getD (JValue.bool false)) <;>
  cases hmax : fs.lookup "max_tokens" <;>
  cases htemp : fs.lookup "temperature" <;>
  simp [List.lookup]

/-- C5: in the backend body built for a well-formed request whose
`stream` field (when present) is boolean, a `stream` field appears only
as an explicit `true` and only when the client's flag is `true`;
`max_tokens` and `temperature` appear exactly when the client sent them,
with the client's value; and the `model` field is the client's when the
key is present and the configured backend model otherwise. -/
theorem backendBody_field_forwarding (fs out : List (String × JValue))
    (hwf : wfRequest (.obj fs) = true)
    (hsb : ∀ v, fs.lookup "stream" = some v → ∃ b, v = JValue.bool b)
    (hout : claude_to_openrouter_body (.obj fs) = .ok (.obj out)) :
    (∀ v, out.lookup "stream" = some v →
      v = JValue.bool true ∧ fs.lookup "stream" = some (JValue.bool true)) ∧
    (fs.lookup "stream" = some (JValue.bool true) →
      out.lookup "stream" = some (JValue.bool true)) ∧
    out.lookup "max_tokens" = fs.lookup "max_tokens" ∧
    out.lookup "temperature" = fs.lookup "temperature" ∧
    out.lookup "model" = some ((fs.lookup "model").getD (.str OPENROUTER_MODEL)) := by
  simp only [wfRequest] at hwf
  rcases hmv : (fs.lookup "messages").getD (JValue.arr []) with _ | b | n | s | ms | gs <;>
    rw [hmv] at hwf
  case arr =>
    obtain ⟨ts, hts⟩ := mapM_translate_total ms hwf
    rw [claude_body_char fs ms ts hmv hts] at hout
    simp only [Except.ok.injEq, JValue.obj.injEq] at hout
    subst hout
    refine ⟨?_, ?_, builtBody_lookup_max fs ts, builtBody_lookup_temp fs ts,
      builtBody_lookup_model fs ts⟩
    · intro v hv
      rw [builtBody_lookup_stream fs ts] at hv
      rcases hs : fs.lookup "stream" with _ | sv
      · rw [hs] at hv; simp [pyTruthy] at hv
      · obtain ⟨sb, rfl⟩ := hsb sv hs
        rw [hs] at hv
        cases sb
        · simp [pyTruthy] at hv
        · simp [pyTruthy] at hv; exact ⟨hv.symm, rfl⟩
    · intro hs
      rw [builtBody_lookup_stream fs ts, hs]
      simp [pyTruthy]
  all_goals exact absurd hwf (by simp)

/-- Witness for C5 at a concrete request: `stream: true` and
`max_tokens: 5` present, `temperature` and `model` absent. -/
theorem backendBody_field_forwarding_witness :
    (∀ v, (List.lookup "stream"
        [("model", JValue.str OPENROUTER_MODEL), ("messages", JValue.arr []),
         ("stream", JValue.bool true), ("max_tokens", JValue.num 5)]) = some v →
      v = JValue.bool true ∧
      (List.lookup "stream"
        [("messages", JValue.arr []), ("stream", JValue.bool true),
         ("max_tokens", JValue.num 5)]) = some (JValue.bool true)) ∧
    ((List.lookup "stream"
        [("messages", JValue.arr []), ("stream", JValue.bool true),
         ("max_tokens", JValue.num 5)]) = some (JValue.bool true) →
      (List.lookup "stream"
        [("model", JValue.str OPENROUTER_MODEL), ("messages", JValue.arr []),
         ("stream", JValue.bool true), ("max_tokens", JValue.num 5)]) =
        some (JValue.bool true)) ∧
    (List.lookup "max_tokens"
        [("model", JValue.str OPENROUTER_MODEL), ("messages", JValue.arr []),
         ("stream", JValue.bool true), ("max_tokens", JValue.num 5)]) =
      (List.lookup "max_tokens"
        [("messages", JValue.arr []), ("stream", JValue.bool true),
         ("max_tokens", JValue.num 5)]) ∧
    (List.lookup "temperature"
        [("model", JValue.str OPENROUTER_MODEL), ("messages", JValue.arr []),
         ("stream", JValue.bool true), ("max_tokens", JValue.num 5)]) =
      (List.lookup "temperature"
        [("messages", JValue.arr []), ("stream", JValue.bool true),
         ("max_tokens", JValue.num 5)]) ∧
    (List.lookup "model"
        [("model", JValue.str OPENROUTER_MODEL), ("messages", JValue.arr []),
         ("stream", JValue.bool true), ("max_tokens", JValue.num 5)]) =
      some ((List.lookup "model"
        [("messages", JValue.arr []), ("stream", JValue.bool true),
         ("max_tokens", JValue.num 5)]).getD (.str OPENROUTER_MODEL)) :=
  backendBody_field_forwarding
    [("messages", JValue.arr []), ("stream", JValue.bool true),
     ("max_tokens", JValue.num 5)]
    [("model", JValue.str OPENROUTER_MODEL), ("messages", JValue.arr []),
     ("stream", JValue.bool true), ("max_tokens", JValue.num 5)]
    rfl
    (fun v h => ⟨true, by injection h with h; exact h.symm⟩)
    rfl

theorem strAppend_ne_left (a b : String) (ha : a ≠ "") : a ++ b ≠ "" := by
  intro hab
  apply ha
  have hlen := congrArg String.length hab
  rw [String.length_append] at hlen
  have h0 : ("" : String).length = 0 := rfl
  rw [h0] at hlen
  have : a.length = 0 := by omega
  cases a with
  | mk data =>
    cases data with
    | nil => rfl
    | cons c cs => simp [String.length] at this

theorem natToDigits_pos (n : Nat) : 0 < (Nat.toDigits 10 n).length := by
  unfold Nat.toDigits
  show 0 < (Nat.toDigitsCore 10 (n + 1) n []).length
  rw [Nat.toDigitsCore]
  by_cases h : n / 10 = 0
  · simp [h]
  · simp only [h, if_false]
    rw [Nat.toDigitsCore_lens_eq]
    omega

theorem natRepr_ne_empty (n : Nat) : Nat.repr n ≠ "" := by
  intro h
  have hpos := natToDigits_pos n
  have hl := congrArg String.length h
  have hrepr : (Nat.repr n).length = (Nat.toDigits 10 n).length := rfl
  have h0 : ("" : String).length = 0 := rfl
  rw [hrepr, h0] at hl
  omega

theorem intToString_ne_empty (n : Int) : toString n ≠ "" := by
  show Int.repr n ≠ ""
  cases n with
  | ofNat m => exact natRepr_ne_empty m
  | negSucc m =>
    simp only [Int.repr]
    exact strAppend_ne_left _ _ (by decide)

theorem jsonDumps_ne_empty (v : JValue) : jsonDumps v ≠ "" := by
  cases v with
  | null => decide
  | bool b => cases b <;> decide
  | num n => exact intToString_ne_empty n
  | str s => rw [jsonDumps]; exact strAppend_ne_left _ _ (strAppend_ne_left _ _ (by decide))
  | arr xs => rw [jsonDumps]; exact strAppend_ne_left _ _ (strAppend_ne_left _ _ (by decide))
  | obj fs => rw [jsonDumps]; exact strAppend_ne_left _ _ (strAppend_ne_left _ _ (by decide))

/-- The text of the single content block of a translated client
response. -/
def respText (r : JValue) : Option JValue :=
  match r with
  | .obj fs =>
    match fs.lookup "content" with
    | some (.arr [.obj cb]) => cb.lookup "text"
    | _ => none
  | _ => none

/-- C6: with zero choices (the `choices` key absent or an empty list)
the translated response's single text block carries the entire backend
response serialised by `json.dumps`, which is never the empty string;
with at least one choice the block carries the first choice's message
content (with the source's defaults), the remaining choices being
ignored. -/
theorem responseTranslator_content (fs : List (String × JValue)) (now : Int) :
    ((fs.lookup "choices").getD (.arr []) = .arr [] →
      ∃ r, openrouter_to_claude (.obj fs) now = .ok r ∧
        respText r = some (.str (jsonDumps (.obj fs))) ∧
        jsonDumps (.obj fs) ≠ "") ∧
    (∀ (cfs : List (String × JValue)) (cs : List JValue)
       (mfs : List (String × JValue)),
      (fs.lookup "choices").getD (.arr []) = .arr (.obj cfs :: cs) →
      (cfs.lookup "message").getD (.obj []) = .obj mfs →
      ∃ r, openrouter_to_claude (.obj fs) now = .ok r ∧
        respText r = some ((mfs.lookup "content").getD (.str ""))) := by
  constructor
  · intro h
    refine ⟨.obj [
      ("id", .str ("msg_" ++ toString now)),
      ("type", .str "message"),
      ("role", .str "assistant"),
      ("content", .arr [.obj [("type", .str "text"),
        ("text", .str (jsonDumps (.obj fs)))]]),
      ("model", .str ANTHROPIC_MODEL_ID),
      ("stop_reason", .str "end_turn"),
      ("stop_sequence", .null),
      ("usage", (fs.lookup "usage").getD
        (.obj [("input_tokens", .num 0), ("output_tokens", .num 0)]))],
      ?_, ?_, jsonDumps_ne_empty (.obj fs)⟩
    · simp [openrouter_to_claude, jGet, bind, Except.bind, h, pyTruthy]
    · simp [respText, List.lookup]
  · intro cfs cs mfs hch hmsg
    refine ⟨.obj [
      ("id", .str ("msg_" ++ toString now)),
      ("type", .str "message"),
      ("role", .str "assistant"),
      ("content", .arr [.obj [("type", .str "text"),
        ("text", (mfs.lookup "content").getD (.str ""))]]),
      ("model", .str ANTHROPIC_MODEL_ID),
      ("stop_reason", .str "end_turn"),
      ("stop_sequence", .null),
      ("usage", (fs.lookup "usage").getD
        (.obj [("input_tokens", .num 0), ("output_tokens", .num 0)]))],
      ?_, ?_⟩
    · simp [openrouter_to_claude, jGet, bind, Except.bind, hch, pyTruthy,
        pyIndex0, hmsg]
    · simp [respText, List.lookup]

/-- Witness for C6: a choice-less response `\x7b"foo": 1\x7d` is echoed
serialised; a response with a `"hello"` first choice and one extra
(ignored) choice yields text `"hello"`. -/
theorem responseTranslator_content_witness :
    (∃ r, openrouter_to_claude (.obj [("foo", .num 1)]) 7 = .ok r ∧
      respText r = some (.str (jsonDumps (.obj [("foo", .num 1)]))) ∧
      jsonDumps (.obj [("foo", .num 1)]) ≠ "") ∧
    (∃ r, openrouter_to_claude (.obj [("choices",
        .arr [.obj [("message", .obj [("content", .str "hello")])],
              .obj []])]) 7 = .ok r ∧
      respText r = some (.str "hello")) :=
  ⟨(responseTranslator_content [("foo", .num 1)] 7).1 rfl,
   (responseTranslator_content [("choices",
        .arr [.obj [("message", .obj [("content", .str "hello")])],
              .obj []])] 7).2
      [("message", .obj [("content", .str "hello")])] [.obj []]
      [("content", .str "hello")] rfl rfl⟩

/-- C10: with a non-empty choices list whose first choice lacks a
message content field (or carries an empty one), the translated
response's sole text block is the empty string — the never-empty
guarantee covers only the zero-choices case. -/
theorem responseTranslator_empty_with_choice (fs cfs mfs : List (String × JValue))
    (cs : List JValue) (now : Int)
    (hch : (fs.lookup "choices").getD (.arr []) = .arr (.obj cfs :: cs))
    (hmsg : (cfs.lookup "message").getD (.obj []) = .obj mfs)
    (hcon : mfs.lookup "content" = none ∨ mfs.lookup "content" = some (.str "")) :
    ∃ r, openrouter_to_claude (.obj fs) now = .ok r ∧
      respText r = some (.str "") := by
  have hc : (mfs.lookup "content").getD (.str "") = .str "" := by
    rcases hcon with h | h <;> simp [h]
  refine ⟨.obj [
    ("id", .str ("msg_" ++ toString now)),
    ("type", .str "message"),
    ("role", .str "assistant"),
    ("content", .arr [.obj [("type", .str "text"), ("text", .str "")]]),
    ("model", .str ANTHROPIC_MODEL_ID),
    ("stop_reason", .str "end_turn"),
    ("stop_sequence", .null),
    ("usage", (fs.lookup "usage").getD
      (.obj [("input_tokens", .num 0), ("output_tokens", .num 0)]))],
    ?_, ?_⟩
  · simp [openrouter_to_claude, jGet, bind, Except.bind, hch, pyTruthy,
      pyIndex0, hmsg, hc]
  · simp [respText, List.lookup]

/-- Witness for C10 at a response whose single choice has an empty
message dict. -/
theorem responseTranslator_empty_witness :
    ∃ r, openrouter_to_claude
      (.obj [("choices", .arr [.obj [("message", .obj [])]])]) 3 = .ok r ∧
      respText r = some (.str "") :=
  responseTranslator_empty_with_choice
    [("choices", .arr [.obj [("message", .obj [])]])]
    [("message", .obj [])] [] [] 3 rfl rfl (Or.inl rfl)

/-- C9: whenever the endpoint's character count succeeds with total `n`,
`count_tokens` answers `input_tokens = n / 4` (integer division),
`output_tokens = 0` and `total_tokens = input_tokens`; in particular a
total of 40 characters gives `input_tokens = 10`. -/
theorem countTokens_quarter (body : JValue) (n : Nat)
    (h : countedChars body = .ok n) :
    count_tokens body = .ok (.obj [
      ("input_tokens", .num (Int.ofNat (n / 4))),
      ("output_tokens", .num 0),
      ("total_tokens", .num (Int.ofNat (n / 4))),
      ("model", .str ANTHROPIC_MODEL_ID)]) ∧
    (n = 40 → Int.ofNat (n / 4) = 10) := by
  constructor
  · simp [count_tokens, bind, Except.bind, h]
  · rintro rfl; rfl

/-- Witness for C9: 20 characters of plain-string content plus two
10-character text blocks (and one ignored image block) total 40 and give
`input_tokens = 10`. -/
theorem countTokens_quarter_witness :
    countedChars (.obj [("messages", .arr [
      .obj [("content", .str "aaaaaaaaaaaaaaaaaaaa")],
      .obj [("content", .arr [
        .obj [("type", .str "text"), ("text", .str "bbbbbbbbbb")],
        .obj [("type", .str "image")],
        .obj [("type", .str "text"), ("text", .str "cccccccccc")]])]])]) =
      .ok 40 ∧
    (count_tokens (.obj [("messages", .arr [
      .obj [("content", .str "aaaaaaaaaaaaaaaaaaaa")],
      .obj [("content", .arr [
        .obj [("type", .str "text"), ("text", .str "bbbbbbbbbb")],
        .obj [("type", .str "image")],
        .obj [("type", .str "text"), ("text", .str "cccccccccc")]])]])]) =
      .ok (.obj [
        ("input_tokens", .num (Int.ofNat (40 / 4))),
        ("output_tokens", .num 0),
        ("total_tokens", .num (Int.ofNat (40 / 4))),
        ("model", .str ANTHROPIC_MODEL_ID)]) ∧
      (40 = 40 → Int.ofNat (40 / 4) = 10)) :=
  ⟨rfl, countTokens_quarter _ 40 rfl⟩

/-- C8 (code bug): when the backend answers HTTP 200 with an
undecodable body, `resp.json()` raises `requests.exceptions.JSONDecodeError`,
which in every installable `requests` release (≥ 2.27) subclasses
`RequestException`; the first `except` clause therefore catches it and
the gateway returns the very same `"OpenRouter request failed"` payload
shape it returns for a transport failure — the dedicated
`"OpenRouter did not return JSON"` branch is unreachable, so the two
failures are not distinguishable, contrary to the specified intent that
the `ValueError` branch itself records. -/
theorem nonStreaming_nonjson_same_as_transport :
    handle_non_streaming_request (.response 200 "not json") 0 =
      .ok (.obj [("error", .str "OpenRouter request failed"),
        ("detail", .str "Expecting value"),
        ("note", .str "Check OPENROUTER_API_KEY and that the model openai/gpt-oss-120b is available for your account.")], 500) ∧
    handle_non_streaming_request (.failure "connection refused") 0 =
      .ok (.obj [("error", .str "OpenRouter request failed"),
        ("detail", .str "connection refused"),
        ("note", .str "Check OPENROUTER_API_KEY and that the model openai/gpt-oss-120b is available for your account.")], 500) :=
  ⟨rfl, rfl⟩

theorem processLines_shape (lines : List String) :
    ∃ ds e, processLines lines = ds ++ [e] ∧
      (∀ x ∈ ds, ∃ v, x = StreamEvent.delta v) ∧
      (e = .terminal ∨ ∃ m, e = .error m) := by
  induction lines with
  | nil => exact ⟨[], .terminal, rfl, by simp, Or.inl rfl⟩
  | cons line rest ih =>
    obtain ⟨ds, e, heq, hds, he⟩ := ih
    by_cases h0 : line = ""
    · exact ⟨ds, e, by simp [processLines, h0, heq], hds, he⟩
    · by_cases hd : strStarts line "data:"
      · by_cases hdone : pyStrip (strDropN line 5) = "[DONE]"
        · exact ⟨[], .terminal, by simp [processLines, h0, hd, hdone], by simp,
            Or.inl rfl⟩
        · cases hp : json_loads (pyStrip (strDropN line 5)) with
          | error err =>
            exact ⟨[], .error err,
              by simp [processLines, h0, hd, hdone, hp], by simp,
              Or.inr ⟨err, rfl⟩⟩
          | ok dj =>
            cases hc : extractChunk dj with
            | error err =>
              exact ⟨[], .error err,
                by simp [processLines, h0, hd, hdone, hp, hc], by simp,
                Or.inr ⟨err, rfl⟩⟩
            | ok chunk =>
              by_cases ht : pyTruthy chunk = true
              · refine ⟨.delta chunk :: ds, e, ?_, ?_, he⟩
                · simp [processLines, h0, hd, hdone, hp, hc, ht, heq]
                · intro x hx
                  rcases List.mem_cons.mp hx with rfl | hx
                  · exact ⟨chunk, rfl⟩
                  · exact hds x hx
              · exact ⟨ds, e,
                  by simp [processLines, h0, hd, hdone, hp, hc, ht, heq],
                  hds, he⟩
      · exact ⟨ds, e, by simp [processLines, h0, hd, heq], hds, he⟩

/-- C1: every produced client event sequence consists of zero or more
delta events followed by exactly one stream-ending event — a terminal or
an error event, never both, never neither. -/
theorem streamTranscoder_single_termination (transport : Except String (List String)) :
    ∃ ds e, generate transport = ds ++ [e] ∧
      (∀ x ∈ ds, ∃ v, x = StreamEvent.delta v) ∧
      (e = .terminal ∨ ∃ m, e = .error m) ∧
      (generate transport).countP StreamEvent.isStop = 1 := by
  cases transport with
  | error msg =>
    exact ⟨[], .error msg, rfl, by simp, Or.inr ⟨msg, rfl⟩,
      by simp [generate, List.countP, List.countP.go, StreamEvent.isStop]⟩
  | ok lines =>
    obtain ⟨ds, e, heq, hds, he⟩ := processLines_shape lines
    refine ⟨ds, e, heq, hds, he, ?_⟩
    have hgen : generate (.ok lines) = processLines lines := rfl
    rw [hgen, heq, List.countP_append]
    have h0 : ds.countP StreamEvent.isStop = 0 :=
      List.countP_eq_zero.mpr fun x hx => by
        obtain ⟨v, rfl⟩ := hds x hx
        simp [StreamEvent.isStop]
    have h1 : List.countP StreamEvent.isStop [e] = 1 := by
      rcases he with rfl | ⟨m, rfl⟩ <;>
        simp [List.countP, List.countP.go, StreamEvent.isStop]
    omega

theorem processLines_deltas (lines : List String) :
    ∃ k, deltaPayloads (processLines lines) =
      (lines.take k).filterMap lineDelta := by
  induction lines with
  | nil => exact ⟨0, rfl⟩
  | cons line rest ih =>
    obtain ⟨k, hk⟩ := ih
    by_cases h0 : line = ""
    · refine ⟨k + 1, ?_⟩
      simp only [processLines, h0, if_true, List.take_succ_cons,
        List.filterMap_cons]
      rw [show lineDelta "" = none from rfl]
      exact hk
    · by_cases hd : strStarts line "data:"
      · by_cases hdone : pyStrip (strDropN line 5) = "[DONE]"
        · exact ⟨0, by simp [processLines, h0, hd, hdone, deltaPayloads]⟩
        · cases hp : json_loads (pyStrip (strDropN line 5)) with
          | error err =>
            exact ⟨0, by simp [processLines, h0, hd, hdone, hp, deltaPayloads]⟩
          | ok dj =>
            cases hc : extractChunk dj with
            | error err =>
              exact ⟨0,
                by simp [processLines, h0, hd, hdone, hp, hc, deltaPayloads]⟩
            | ok chunk =>
              by_cases ht : pyTruthy chunk = true
              · have hstep : processLines (line :: rest) =
                    .delta chunk :: processLines rest := by
                  simp [processLines, h0, hd, hdone, hp, hc, ht]
                have hsome : lineDelta line = some chunk := by
                  simp [lineDelta, h0, hd, hdone, hp, hc, ht]
                refine ⟨k + 1, ?_⟩
                rw [hstep, List.take_succ_cons, List.filterMap_cons, hsome]
                show chunk :: deltaPayloads (processLines rest) =
                  chunk :: List.filterMap lineDelta (List.take k rest)
                rw [hk]
              · have ht' : pyTruthy chunk = false := by
                  cases hpt : pyTruthy chunk
                  · rfl
                  · exact absurd hpt ht
                have hstep : processLines (line :: rest) = processLines rest := by
                  simp [processLines, h0, hd, hdone, hp, hc, ht']
                have hnone : lineDelta line = none := by
                  simp [lineDelta, h0, hd, hdone, hp, hc, ht']
                refine ⟨k + 1, ?_⟩
                rw [hstep, List.take_succ_cons, List.filterMap_cons, hnone]
                exact hk
      · refine ⟨k + 1, ?_⟩
        have hline : lineDelta line = none := by simp [lineDelta, h0, hd]
        simp only [processLines, h0, hd, if_false, List.take_succ_cons]
        rw [List.filterMap_cons, hline]
        exact hk

/-- C2: on the three-line example stream the transcoder emits exactly
the deltas `"He"` then `"llo"` followed by the single terminal event and
no error event; in general the delta payloads of any stream are the
per-line contributions of a prefix of the input lines, in arrival
order. -/
theorem streamTranscoder_order :
    generate (.ok [
      "data: \x7b\"choices\":[\x7b\"delta\":\x7b\"content\":\"He\"\x7d\x7d]\x7d",
      "data: \x7b\"choices\":[\x7b\"delta\":\x7b\"content\":\"llo\"\x7d\x7d]\x7d",
      "data: [DONE]"]) =
      [.delta (.str "He"), .delta (.str "llo"), .terminal] ∧
    ∀ lines, ∃ k, deltaPayloads (generate (.ok lines)) =
      (lines.take k).filterMap lineDelta :=
  ⟨rfl, processLines_deltas⟩

/-- C7: a `data:`-tagged, non-sentinel line whose payload parses but
whose extracted content fragment is falsy (in particular, when the
chunk's choices list is empty the fragment is the empty string)
contributes no event at all: processing the stream from that line is
processing the rest of the stream. -/
theorem streamTranscoder_skips_empty_chunks (line : String)
    (rest : List String) (dj chunk : JValue)
    (hd : strStarts line "data:" = true)
    (hdone : pyStrip (strDropN line 5) ≠ "[DONE]")
    (hp : json_loads (pyStrip (strDropN line 5)) = .ok dj)
    (hc : extractChunk dj = .ok chunk)
    (ht : pyTruthy chunk = false) :
    processLines (line :: rest) = processLines rest ∧
    lineDelta line = none := by
  have h0 : line ≠ "" := by
    intro h
    rw [h] at hd
    exact absurd hd (by decide)
  constructor
  · simp [processLines, h0, hd, hdone, hp, hc, ht]
  · simp [lineDelta, h0, hd, hdone, hp, hc, ht]

/-- Witness for C7 at the line `data: \x7b"choices":[]\x7d`, whose
parsed chunk is the empty string because the choices list is empty. -/
theorem streamTranscoder_skips_empty_witness :
    processLines ["data: \x7b\"choices\":[]\x7d", "data: [DONE]"] =
      processLines ["data: [DONE]"] ∧
    lineDelta "data: \x7b\"choices\":[]\x7d" = none :=
  streamTranscoder_skips_empty_chunks "data: \x7b\"choices\":[]\x7d"
    ["data: [DONE]"] (.obj [("choices", .arr [])]) (.str "")
    rfl (by decide) rfl rfl rfl
